import Mathlib

/-!
Shallow embedding of the emissions core of `src/app.py` (Mira GHG
calculator).  Quantities and emission factors are modelled as exact
rationals; Python dictionaries become association lists (`List (String × ℚ)`)
for the per-category item tables and a function `Category → Option _` for
the top-level category dictionary, where `none` models an absent key.
Dictionary subscript (`d[k]`, which raises `KeyError` on a missing key) is
modelled in `Option`, while `d.get(k, 0)` becomes `(lookup k).getD 0`.
-/

/-- The five category keys of `EMISSION_FACTORS` in `src/app.py`. -/
inductive Category where
  | livestock
  | crops
  | fertilizer
  | fuel
  | electricity
deriving DecidableEq, Repr

/-- The categories in the iteration order of `EMISSION_FACTORS` (dict order
in `src/app.py` lines 10-27). -/
def allCategories : List Category :=
  [Category.livestock, Category.crops, Category.fertilizer, Category.fuel,
   Category.electricity]

/-- The static factor table of `src/app.py` lines 10-27. -/
def EMISSION_FACTORS : Category → List (String × ℚ)
  | Category.livestock =>
      [("Beef Cow", 99.0), ("Dairy Cow", 102.0), ("Buffalo", 107.0),
       ("Chicken", 6.0), ("Pigs", 21.0), ("Sheep", 15.0), ("Goats", 15.0),
       ("Camels", 84.0), ("Horses", 56.0)]
  | Category.crops =>
      [("Wheat", 0.69), ("Barley", 0.54), ("Maize", 0.77), ("Oats", 0.64),
       ("Rye", 0.68), ("Rice", 1.50), ("Millet", 0.67), ("Sorghum", 0.61),
       ("Pasture", 0.15), ("Peas", 0.45), ("Beans", 0.62), ("Soybeans", 0.62),
       ("Potatoes", 0.43), ("Feedbeet", 0.47), ("Sugarcane", 0.73),
       ("Peanuts", 0.80)]
  | Category.fertilizer =>
      [("Urea", 1.87), ("Lime", 0.61), ("Gypsum", 0.10),
       ("Animal Manure", 0.20), ("Organic Compost", 0.20),
       ("Filter Cake", 0.25), ("Vinasse", 0.10)]
  | Category.fuel =>
      [("Diesel Oil", 2.68), ("Gasoline", 2.31), ("Biodiesel", 1.83),
       ("Anhydrous Ethanol", 1.50), ("Hydrated Ethanol", 1.44),
       ("Natural Gas", 2.75)]
  | Category.electricity =>
      [("Solar", 0.05), ("Wind", 0.03), ("Hydropower", 0.02)]

/-- `get_emission_factors` of `src/app.py` lines 29-31. -/
def get_emission_factors : Category → List (String × ℚ) :=
  EMISSION_FACTORS

/-- A quantities structure: the dictionary of dictionaries supplied by the
caller.  `none` models a category key absent from the outer dictionary. -/
def QuantityInput : Type :=
  Category → Option (List (String × ℚ))

/-- `calculate_emissions` of `src/app.py` lines 33-35. -/
def calculate_emissions (quantity factor : ℚ) : ℚ :=
  quantity * factor

/-- The factor lookup `factors[category].get(item, 0)` used by
`calculate_total_emissions` (`src/app.py` line 41). -/
def factorOf (c : Category) (item : String) : ℚ :=
  ((get_emission_factors c).lookup item).getD 0

/-- The per-category sum of `calculate_total_emissions` (`src/app.py`
lines 41-42): sum of `calculate_emissions(quantity, factors[c].get(item, 0))`
over the items of one category. -/
def categoryEmissions (c : Category) (items : List (String × ℚ)) : ℚ :=
  (items.map (fun p => calculate_emissions p.2 (factorOf c p.1))).sum

/-- `calculate_total_emissions` of `src/app.py` lines 37-45: the dict
comprehension iterates over the categories present in `data`, so the result
has an entry exactly for those categories. -/
def calculate_total_emissions (data : QuantityInput) (c : Category) : Option ℚ :=
  (data c).map (categoryEmissions c)

/-- The inner helper `add_emissions` of `plot_comparison_chart`
(`src/app.py` lines 51-57): for every item the factor is read with the
subscript `factor_dict[item]`, which raises `KeyError` when the item is not
a key, modelled by `none`.  Each processed item yields one row
(label, annual emissions, annual emissions × 0.8). -/
def add_emissions (c : Category) : List (String × ℚ) → Option (List (String × ℚ × ℚ))
  | [] => some []
  | p :: rest =>
    match (get_emission_factors c).lookup p.1 with
    | none => none
    | some f =>
      (add_emissions c rest).map
        (fun rs => (p.1, calculate_emissions p.2 f, calculate_emissions p.2 f * 0.8) :: rs)

/-- The loop `for category in factors: add_emissions(data[category], ...)`
of `plot_comparison_chart` (`src/app.py` lines 59-61): the subscript
`data[category]` also raises on a missing category key. -/
def comparisonRows (data : QuantityInput) : List Category → Option (List (String × ℚ × ℚ))
  | [] => some []
  | c :: cs => do
    let items ← data c
    let rows ← add_emissions c items
    let rest ← comparisonRows data cs
    pure (rows ++ rest)

/-- The data series (labels, traditional values, reduced values) that
`plot_comparison_chart` (`src/app.py` lines 47-61) assembles before charting. -/
def plot_comparison_series (data : QuantityInput) :
    Option (List String × List ℚ × List ℚ) :=
  (comparisonRows data allCategories).map
    (fun rows => (rows.map Prod.fst, rows.map (fun r => r.2.1),
                  rows.map (fun r => r.2.2)))

/-- One iteration of the loop body of `predict_future_emissions`
(`src/app.py` lines 128-130): append `last element × 1.05`. -/
def growStep (xs : List ℚ) : List ℚ :=
  xs ++ [xs.getLastD 0 * 1.05]

/-- The loop `for _ in range(1, len(years))` of `predict_future_emissions`,
iterated `n` times. -/
def growLoop : Nat → List ℚ → List ℚ
  | 0, xs => xs
  | n + 1, xs => growLoop n (growStep xs)

/-- The two series built by `predict_future_emissions` from the base total
(`src/app.py` lines 123-130): `years = range(2024, 2034)` has 10 entries, so
the loop appends 9 times to the singleton start lists `[base]` and
`[base * 0.8]`. -/
def predictSeries (base : ℚ) : List ℚ × List ℚ :=
  (growLoop 9 [base], growLoop 9 [base * 0.8])

/-- `predict_future_emissions` of `src/app.py` lines 118-135: the five
subscripts `base_emissions['livestock']`, ..., `base_emissions['electricity']`
(lines 124-125) raise `KeyError` when the category is absent from the input,
modelled by `Option` binds. -/
def predict_future_emissions (data : QuantityInput) : Option (List ℚ × List ℚ) := do
  let l ← calculate_total_emissions data Category.livestock
  let c ← calculate_total_emissions data Category.crops
  let f ← calculate_total_emissions data Category.fertilizer
  let u ← calculate_total_emissions data Category.fuel
  let e ← calculate_total_emissions data Category.electricity
  pure (predictSeries (l + c + f + u + e))

/-- The per-category header strings of `generate_recommendations`
(`src/app.py` lines 141, 147, 153, 159, 165). -/
def recHeader : Category → String
  | Category.livestock => "### Recommendations for Livestock"
  | Category.crops => "### Recommendations for Crops"
  | Category.fertilizer => "### Recommendations for Fertilizers"
  | Category.fuel => "### Recommendations for Fuel"
  | Category.electricity => "### Recommendations for Electricity"

/-- The per-item recommendation strings of `generate_recommendations`
(`src/app.py` lines 144, 150, 156, 162, 168).  The livestock and crops
f-strings interpolate the item name; the other three do not. -/
def recLine (c : Category) (item : String) : String :=
  match c with
  | Category.livestock =>
      "- Consider improving feed efficiency and manure management for " ++
        item ++ ". This can help reduce methane emissions."
  | Category.crops =>
      "- Optimize fertilizer use and adopt precision agriculture techniques for " ++
        item ++ " to minimize emissions."
  | Category.fertilizer =>
      "- Use fertilizers like Organic Compost or Filter Cake to reduce emissions compared to conventional options."
  | Category.fuel =>
      "- Switch to cleaner fuels like Biodiesel or reduce reliance on Diesel Oil to lower emissions."
  | Category.electricity =>
      "- Increase the use of renewable energy sources such as Solar or Wind to reduce emissions from electricity consumption."

/-- One block of `generate_recommendations` (`src/app.py` lines 140-168):
`if c in data and data[c]:` appends the header (a nonempty dict is truthy),
then one line per item whose quantity is `> 0`. -/
def recsFor (data : QuantityInput) (c : Category) : List String :=
  match data c with
  | none => []
  | some items =>
    if items.isEmpty then []
    else recHeader c :: (items.filter (fun p => decide (0 < p.2))).map (fun p => recLine c p.1)

/-- `generate_recommendations` of `src/app.py` lines 137-170: the five
category blocks in source order, concatenated. -/
def generate_recommendations (data : QuantityInput) : List String :=
  (allCategories.map (recsFor data)).flatten

/-- The input of the worked example: Wheat 10 under crops, Urea 5 under
fertilizer, every other category present with an empty item mapping. -/
def exampleInput : QuantityInput := fun c =>
  match c with
  | Category.crops => some [("Wheat", 10)]
  | Category.fertilizer => some [("Urea", 5)]
  | _ => some []

/-- C8: with the fixed factor table, the input Wheat: 10 (crops) and
Urea: 5 (fertilizer), other categories empty, yields exactly
crops = 6.9, fertilizer = 9.35 and 0 for livestock, fuel and electricity. -/
theorem c8_worked_example :
    calculate_total_emissions exampleInput Category.crops = some 6.9 ∧
    calculate_total_emissions exampleInput Category.fertilizer = some 9.35 ∧
    calculate_total_emissions exampleInput Category.livestock = some 0 ∧
    calculate_total_emissions exampleInput Category.fuel = some 0 ∧
    calculate_total_emissions exampleInput Category.electricity = some 0 := by
  refine ⟨?_, ?_, ?_, ?_, ?_⟩ <;>
    simp [calculate_total_emissions, exampleInput, categoryEmissions,
      calculate_emissions, factorOf, get_emission_factors, EMISSION_FACTORS,
      List.lookup] <;> norm_num

/-- The input with no category key at all (an empty outer dictionary). -/
def emptyInput : QuantityInput := fun _ => none

/-- C2 counterexample: on the empty input the result of
`calculate_total_emissions` has no entry for livestock at all (the dict
comprehension only iterates over the categories present in the input), so
livestock is not mapped to a total of 0. -/
theorem c2_counterexample :
    calculate_total_emissions emptyInput Category.livestock = none := rfl

/-- C2 (amended): the result of `calculate_total_emissions` has an entry
exactly for the categories present in the input; a category present with an
empty item mapping has total exactly 0, while an absent category is absent
from the result rather than mapped to 0. -/
theorem c2_result_mirrors_input_categories (data : QuantityInput) (c : Category) :
    (calculate_total_emissions data c = none ↔ data c = none) ∧
    (data c = some [] → calculate_total_emissions data c = some 0) := by
  constructor
  · cases h : data c <;> simp [calculate_total_emissions, h]
  · intro h
    simp [calculate_total_emissions, h, categoryEmissions]

lemma growLoop_succ (n : Nat) (xs : List ℚ) :
    growLoop (n + 1) xs = growStep (growLoop n xs) := by
  induction n generalizing xs with
  | zero => rfl
  | succ n ih =>
    show growLoop (n + 1) (growStep xs) = growStep (growLoop (n + 1) xs)
    rw [ih, growLoop]

lemma growLoop_closed (b : ℚ) (n : Nat) :
    growLoop n [b] = (List.range (n + 1)).map (fun i => b * 1.05 ^ i) := by
  induction n with
  | zero => simp [growLoop, List.range_succ]
  | succ n ih =>
    rw [growLoop_succ, ih, growStep]
    have hlast : ((List.range (n + 1)).map (fun i => b * 1.05 ^ i)).getLastD 0 = b * 1.05 ^ n := by
      rw [List.range_succ]
      simp [List.getLastD_concat]
    rw [hlast]
    have hr : List.range (n + 1 + 1) = List.range (n + 1) ++ [n + 1] := List.range_succ (n + 1)
    rw [hr, List.map_append]
    congr 1
    simp [pow_succ, mul_assoc]

lemma getD_map_range (f : Nat → ℚ) (i n : Nat) (h : i < n) :
    ((List.range n).map f).getD i 0 = f i := by
  rw [List.getD_eq_getElem?_getD, List.getElem?_map]
  simp [List.getElem?_range, h]

/-- C3: for every base total b, the projection built by
`predict_future_emissions` yields two sequences of length 10 with
traditional[0] = b, reduced[0] = b × 0.8, and each later entry equal to the
previous one times 1.05. -/
theorem c3_projection_series (b : ℚ) :
    (predictSeries b).1.length = 10 ∧
    (predictSeries b).2.length = 10 ∧
    (predictSeries b).1.getD 0 0 = b ∧
    (predictSeries b).2.getD 0 0 = b * 0.8 ∧
    ∀ i : Nat, 1 ≤ i → i ≤ 9 →
      (predictSeries b).1.getD i 0 = (predictSeries b).1.getD (i - 1) 0 * 1.05 ∧
      (predictSeries b).2.getD i 0 = (predictSeries b).2.getD (i - 1) 0 * 1.05 := by
  have hlen : ∀ x : ℚ, (growLoop 9 [x]).length = 10 := by
    intro x; rw [growLoop_closed]; simp
  have hget : ∀ (x : ℚ) (i : Nat), i < 10 → (growLoop 9 [x]).getD i 0 = x * 1.05 ^ i := by
    intro x i hi
    rw [growLoop_closed]
    exact getD_map_range _ i 10 hi
  refine ⟨hlen b, hlen (b * 0.8), ?_, ?_, ?_⟩
  · rw [predictSeries, hget b 0 (by norm_num)]; ring
  · rw [predictSeries, hget (b * 0.8) 0 (by norm_num)]; ring
  · intro i h1 h9
    have hi : i < 10 := Nat.lt_succ_of_le h9
    have hi' : i - 1 < 10 := lt_of_le_of_lt (Nat.sub_le i 1) hi
    have hii : i - 1 + 1 = i := Nat.sub_add_cancel h1
    constructor
    · rw [predictSeries]
      rw [hget b i hi, hget b (i - 1) hi']
      rw [mul_assoc, ← pow_succ, hii]
    · rw [predictSeries]
      rw [hget (b * 0.8) i hi, hget (b * 0.8) (i - 1) hi']
      nth_rewrite 2 [mul_assoc]
      rw [← pow_succ, hii]

lemma growLoop_head (b : ℚ) : (growLoop 9 [b])[0]?.getD 0 = b := by
  have h := getD_map_range (fun i => b * 1.05 ^ i) 0 (9 + 1) (by norm_num)
  rw [List.getD_eq_getElem?_getD] at h
  rw [growLoop_closed, h]
  simp

/-- C6: for an input that carries all five category keys, the year-0 value
of the traditional projection equals the grand sum of the five per-category
totals of `calculate_total_emissions` on that same input. -/
theorem c6_base_is_grand_total (data : QuantityInput)
    (h : ∀ c : Category, (data c).isSome = true) :
    (predict_future_emissions data).map (fun p => p.1.getD 0 0) =
      some ((calculate_total_emissions data Category.livestock).getD 0 +
            (calculate_total_emissions data Category.crops).getD 0 +
            (calculate_total_emissions data Category.fertilizer).getD 0 +
            (calculate_total_emissions data Category.fuel).getD 0 +
            (calculate_total_emissions data Category.electricity).getD 0) := by
  obtain ⟨xl, hl⟩ := Option.isSome_iff_exists.mp (h Category.livestock)
  obtain ⟨xc, hc⟩ := Option.isSome_iff_exists.mp (h Category.crops)
  obtain ⟨xf, hf⟩ := Option.isSome_iff_exists.mp (h Category.fertilizer)
  obtain ⟨xu, hu⟩ := Option.isSome_iff_exists.mp (h Category.fuel)
  obtain ⟨xe, he⟩ := Option.isSome_iff_exists.mp (h Category.electricity)
  simp [predict_future_emissions, calculate_total_emissions, hl, hc, hf, hu,
    he, predictSeries, growLoop_head]

/-- C6 witness: the hypothesis holds for the worked example input, whose
traditional projection starts at 6.9 + 9.35. -/
theorem c6_base_is_grand_total_witness :
    (predict_future_emissions exampleInput).map (fun p => p.1.getD 0 0) =
      some ((calculate_total_emissions exampleInput Category.livestock).getD 0 +
            (calculate_total_emissions exampleInput Category.crops).getD 0 +
            (calculate_total_emissions exampleInput Category.fertilizer).getD 0 +
            (calculate_total_emissions exampleInput Category.fuel).getD 0 +
            (calculate_total_emissions exampleInput Category.electricity).getD 0) :=
  c6_base_is_grand_total exampleInput (by intro c; cases c <;> rfl)

lemma predict_none_of_missing (data : QuantityInput) (c : Category)
    (h : data c = none) : predict_future_emissions data = none := by
  cases c
  case livestock =>
    simp [predict_future_emissions, calculate_total_emissions, h]
  case crops =>
    cases hl : data Category.livestock <;>
      simp [predict_future_emissions, calculate_total_emissions, h, hl]
  case fertilizer =>
    cases hl : data Category.livestock <;>
    cases hc : data Category.crops <;>
      simp [predict_future_emissions, calculate_total_emissions, h, hl, hc]
  case fuel =>
    cases hl : data Category.livestock <;>
    cases hc : data Category.crops <;>
    cases hf : data Category.fertilizer <;>
      simp [predict_future_emissions, calculate_total_emissions, h, hl, hc, hf]
  case electricity =>
    cases hl : data Category.livestock <;>
    cases hc : data Category.crops <;>
    cases hf : data Category.fertilizer <;>
    cases hu : data Category.fuel <;>
      simp [predict_future_emissions, calculate_total_emissions, h, hl, hc, hf, hu]

/-- C9: the decade projection succeeds exactly when the input carries all
five category keys; a missing category key makes the unguarded subscripts of
`predict_future_emissions` hit their error branch rather than contribute 0. -/
theorem c9_projection_defined_iff_all_present (data : QuantityInput) :
    (predict_future_emissions data).isSome = true ↔
      ∀ c : Category, (data c).isSome = true := by
  constructor
  · intro h c
    by_contra hc
    rw [Option.not_isSome_iff_eq_none] at hc
    rw [predict_none_of_missing data c hc] at h
    simp at h
  · intro h
    obtain ⟨xl, hl⟩ := Option.isSome_iff_exists.mp (h Category.livestock)
    obtain ⟨xc, hc⟩ := Option.isSome_iff_exists.mp (h Category.crops)
    obtain ⟨xf, hf⟩ := Option.isSome_iff_exists.mp (h Category.fertilizer)
    obtain ⟨xu, hu⟩ := Option.isSome_iff_exists.mp (h Category.fuel)
    obtain ⟨xe, he⟩ := Option.isSome_iff_exists.mp (h Category.electricity)
    simp [predict_future_emissions, calculate_total_emissions, hl, hc, hf, hu, he]

lemma mem_of_lookup_eq_some {l : List (String × ℚ)} {s : String} {f : ℚ}
    (h : l.lookup s = some f) : (s, f) ∈ l := by
  induction l with
  | nil => simp [List.lookup] at h
  | cons p rest ih =>
    rcases p with ⟨k, v⟩
    cases hbe : s == k
    · simp [List.lookup, hbe] at h
      exact List.mem_cons_of_mem _ (ih h)
    · have hk : s = k := eq_of_beq hbe
      simp [List.lookup, hbe] at h
      subst hk
      subst h
      exact List.mem_cons_self _ _

lemma factorOf_nonneg (c : Category) (s : String) : 0 ≤ factorOf c s := by
  rw [factorOf]
  cases h : (get_emission_factors c).lookup s
  · simp
  · rename_i f
    have hmem : (s, f) ∈ get_emission_factors c := mem_of_lookup_eq_some h
    have hall : ∀ p ∈ get_emission_factors c, 0 ≤ p.2 := by
      cases c <;> simp [get_emission_factors, EMISSION_FACTORS] <;> norm_num
    simpa using hall (s, f) hmem

lemma categoryEmissions_nonneg (c : Category) (items : List (String × ℚ))
    (h : ∀ p ∈ items, 0 ≤ p.2) : 0 ≤ categoryEmissions c items := by
  apply List.sum_nonneg
  intro x hx
  simp only [List.mem_map] at hx
  obtain ⟨p, hp, rfl⟩ := hx
  exact mul_nonneg (h p hp) (factorOf_nonneg c p.1)

/-- C7: the per-category computation is linear on a singleton item mapping,
a category whose items all have quantity 0 has total exactly 0, and
non-negative quantities give a non-negative total. -/
theorem c7_linear_zero_nonneg (c : Category) (s : String) (q : ℚ) (_hq : 0 ≤ q)
    (zitems : List (String × ℚ)) (hz : ∀ p ∈ zitems, p.2 = 0)
    (nitems : List (String × ℚ)) (hn : ∀ p ∈ nitems, 0 ≤ p.2)
    (data : QuantityInput) (hd : data c = some zitems) :
    categoryEmissions c [(s, q)] = q * factorOf c s ∧
    calculate_total_emissions data c = some 0 ∧
    0 ≤ categoryEmissions c nitems := by
  refine ⟨?_, ?_, categoryEmissions_nonneg c nitems hn⟩
  · simp [categoryEmissions, calculate_emissions]
  · rw [calculate_total_emissions, hd]
    have : categoryEmissions c zitems = 0 := by
      apply List.sum_eq_zero
      intro x hx
      simp only [List.mem_map] at hx
      obtain ⟨p, hp, rfl⟩ := hx
      simp [calculate_emissions, hz p hp]
    simp [this]

/-- C7 witness: the singleton input Wheat: 2 under crops, the all-zero item
mapping Wheat: 0, and the non-negative mapping Wheat: 3. -/
theorem c7_linear_zero_nonneg_witness :
    categoryEmissions Category.crops [("Wheat", 2)] = 2 * factorOf Category.crops "Wheat" ∧
    calculate_total_emissions (fun _ => some [("Wheat", 0)]) Category.crops = some 0 ∧
    0 ≤ categoryEmissions Category.crops [("Wheat", 3)] :=
  c7_linear_zero_nonneg Category.crops "Wheat" 2 (by norm_num)
    [("Wheat", 0)] (by rintro p hp; simp at hp; rw [hp])
    [("Wheat", 3)] (by rintro p hp; simp at hp; rw [hp]; norm_num)
    (fun _ => some [("Wheat", 0)]) rfl

/-- An input whose only present category is livestock, with a single item of
quantity 0. -/
def zeroQuantityInput : QuantityInput := fun c =>
  match c with
  | Category.livestock => some [("Beef Cow", 0)]
  | _ => none

/-- C5 counterexample: a category whose items all have quantity 0 still
produces its category header, because the code only tests `data[c]` for
truthiness (non-emptiness), not for a positive quantity. -/
theorem c5_counterexample :
    generate_recommendations zeroQuantityInput =
      ["### Recommendations for Livestock"] := by
  simp [generate_recommendations, allCategories, recsFor, zeroQuantityInput,
    recHeader]

/-- C5 (amended): a category contributes recommendation output exactly when
it is present in the input with a nonempty item mapping; for every such
category the block starts with the category header even when no item has a
positive quantity, and per-item lines are emitted only for positive
quantities. -/
theorem c5_block_iff_present_nonempty (data : QuantityInput) (c : Category) :
    (recsFor data c = [] ↔ data c = none ∨ data c = some []) ∧
    (∀ items, data c = some items → items ≠ [] →
      (recsFor data c).head? = some (recHeader c)) ∧
    (∀ items, data c = some items →
      (recsFor data c).tail =
        (items.filter (fun p => decide (0 < p.2))).map (fun p => recLine c p.1)) := by
  refine ⟨?_, ?_, ?_⟩
  · cases h : data c
    · simp [recsFor, h]
    · rename_i items
      cases items <;> simp [recsFor, h]
  · intro items h hne
    rw [recsFor, h]
    cases items
    · exact absurd rfl hne
    · simp
  · intro items h
    rw [recsFor, h]
    cases items <;> simp

/-- Whether a category block runs at all: `c in data and data[c]` truthiness
(`src/app.py` lines 140, 146, 152, 158, 164). -/
def qualifies (data : QuantityInput) (c : Category) : Bool :=
  match data c with
  | none => false
  | some items => !items.isEmpty

/-- The number of items of a category with a positive quantity. -/
def positiveCount (data : QuantityInput) (c : Category) : Nat :=
  match data c with
  | none => 0
  | some items => (items.filter (fun p => decide (0 < p.2))).length

lemma recsFor_length (data : QuantityInput) (c : Category) :
    (recsFor data c).length =
      (if qualifies data c then 1 else 0) + positiveCount data c := by
  cases h : data c
  · simp [recsFor, qualifies, positiveCount, h]
  · rename_i items
    cases items with
    | nil => simp [recsFor, qualifies, positiveCount, h]
    | cons p rest =>
      simp [recsFor, qualifies, positiveCount, h]
      omega

/-- An input whose only present category is livestock, holding two items of
positive quantity. -/
def twoAnimalInput : QuantityInput := fun c =>
  match c with
  | Category.livestock => some [("Beef Cow", 1), ("Chicken", 1)]
  | _ => none

/-- C4 counterexample: with two positive-quantity livestock items the code
emits three lines (a header plus two per-item lines), not two, and the two
per-item lines differ because the livestock f-string interpolates the item
name. -/
theorem c4_counterexample :
    (generate_recommendations twoAnimalInput).length = 3 ∧
    (generate_recommendations twoAnimalInput).getD 1 "" ≠
      (generate_recommendations twoAnimalInput).getD 2 "" := by
  constructor
  · simp [generate_recommendations, allCategories, recsFor, twoAnimalInput]
  · simp [generate_recommendations, allCategories, recsFor, twoAnimalInput,
      recLine]

/-- C4 (amended): per category the code emits one header line when the
category is present with a nonempty item mapping plus exactly one
recommendation line per positive-quantity item, in input order; the
fertilizer, fuel and electricity per-item lines are each one fixed string
repeated per qualifying item, while the livestock and crops lines embed the
item name. -/
theorem c4_line_structure (data : QuantityInput) :
    (generate_recommendations data).length =
      ((allCategories.map
        (fun c => (if qualifies data c then 1 else 0) + positiveCount data c)).sum) ∧
    (∀ s t : String, recLine Category.fertilizer s = recLine Category.fertilizer t) ∧
    (∀ s t : String, recLine Category.fuel s = recLine Category.fuel t) ∧
    (∀ s t : String, recLine Category.electricity s = recLine Category.electricity t) ∧
    (∀ s : String, recLine Category.livestock s =
      "- Consider improving feed efficiency and manure management for " ++
        s ++ ". This can help reduce methane emissions.") ∧
    (∀ s : String, recLine Category.crops s =
      "- Optimize fertilizer use and adopt precision agriculture techniques for " ++
        s ++ " to minimize emissions.") := by
  refine ⟨?_, fun s t => rfl, fun s t => rfl, fun s t => rfl, fun s => rfl, fun s => rfl⟩
  simp [generate_recommendations, allCategories, recsFor_length]

lemma mem_allCategories (c : Category) : c ∈ allCategories := by
  cases c <;> simp [allCategories]

lemma comparisonRows_none_of_mem (data : QuantityInput) :
    ∀ (l : List Category) (c : Category), c ∈ l →
      (data c).bind (add_emissions c) = none →
      comparisonRows data l = none := by
  intro l
  induction l with
  | nil =>
    intro c hc _
    simp at hc
  | cons d ds ih =>
    intro c hc hfail
    rcases List.mem_cons.mp hc with hh | hh
    · subst hh
      cases hd : data c
      · simp [comparisonRows, hd]
      · rename_i items
        have hadd : add_emissions c items = none := by
          have h2 := hfail
          rw [hd] at h2
          simpa using h2
        simp [comparisonRows, hd, hadd]
    · cases hd : data d
      · simp [comparisonRows, hd]
      · rename_i items
        cases ha : add_emissions d items
        · simp [comparisonRows, hd, ha]
        · simp [comparisonRows, hd, ha, ih c hh hfail]

/-- An input with every category present; crops holds one item name that is
not a key of the crops factor table. -/
def unknownItemInput : QuantityInput := fun c =>
  match c with
  | Category.crops => some [("Plutonium", 1)]
  | _ => some []

/-- C1 counterexample: the per-item comparison series does not complete on
an unknown item: `plot_comparison_chart` reads the factor with the raising
subscript `factor_dict[item]`, so the operation fails instead of treating
the factor as 0. -/
theorem c1_counterexample :
    plot_comparison_series unknownItemInput = none := by
  simp [plot_comparison_series, comparisonRows, allCategories, add_emissions,
    unknownItemInput, get_emission_factors, EMISSION_FACTORS, List.lookup]

lemma add_emissions_none_of_unknown (c : Category) (s : String) (q : ℚ)
    (h : (get_emission_factors c).lookup s = none) :
    ∀ pre post : List (String × ℚ),
      add_emissions c (pre ++ (s, q) :: post) = none := by
  intro pre post
  induction pre with
  | nil => simp [add_emissions, h]
  | cons p rest ih =>
    simp only [List.cons_append, add_emissions]
    cases hl : (get_emission_factors c).lookup p.1 <;> simp [ih]

/-- C1 (amended): an item missing from its category's factor table has
factor 0 and contributes zero to the total-emissions computation, which
completes; the per-item comparison series, however, uses an unguarded
lookup and fails on any input whose present category holds such an item at
any position of its item mapping. -/
theorem c1_unknown_item_fallback_vs_failure (c : Category) (s : String) (q : ℚ)
    (pre post : List (String × ℚ))
    (h : (get_emission_factors c).lookup s = none) :
    factorOf c s = 0 ∧
    categoryEmissions c (pre ++ (s, q) :: post) = categoryEmissions c (pre ++ post) ∧
    (∀ data : QuantityInput, data c = some (pre ++ (s, q) :: post) →
      calculate_total_emissions data c = some (categoryEmissions c (pre ++ post))) ∧
    (∀ data : QuantityInput, data c = some (pre ++ (s, q) :: post) →
      plot_comparison_series data = none) := by
  have hf : factorOf c s = 0 := by simp [factorOf, h]
  have hcat : categoryEmissions c (pre ++ (s, q) :: post) =
      categoryEmissions c (pre ++ post) := by
    simp [categoryEmissions, calculate_emissions, List.map_append,
      List.sum_append, hf]
  refine ⟨hf, hcat, ?_, ?_⟩
  · intro data hd
    simp [calculate_total_emissions, hd, hcat]
  · intro data hd
    have hfail : (data c).bind (add_emissions c) = none := by
      rw [hd]
      simp [add_emissions_none_of_unknown c s q h pre post]
    rw [plot_comparison_series,
      comparisonRows_none_of_mem data allCategories c (mem_allCategories c) hfail]
    rfl

/-- An input with every category present; crops holds a known item followed
by an item name that is not a key of the crops factor table. -/
def mixedItemsInput : QuantityInput := fun c =>
  match c with
  | Category.crops => some [("Wheat", 1), ("Plutonium", 2)]
  | _ => some []

/-- C1 witness: the unknown crops item Plutonium has factor 0 in the
total-emissions path while the comparison series fails on an input holding
it behind a known item. -/
theorem c1_unknown_item_witness :
    factorOf Category.crops "Plutonium" = 0 ∧
    plot_comparison_series mixedItemsInput = none := by
  have h := c1_unknown_item_fallback_vs_failure Category.crops "Plutonium" 2
    [("Wheat", 1)] [] (by rfl)
  exact ⟨h.1, h.2.2.2 mixedItemsInput rfl⟩
